import Mathlib

/-!
Verification of the metrics-sampling pipeline in
`scripts/metrics-sample2.mjs` (shallow embedding).

Conventions of the embedding:
* JS numbers that the script handles are always integers here (the script
  only manipulates slot/epoch/count/balance integers and the sentinel -1);
  `Math.floor` of a real quotient is `Int.fdiv`, `Math.round` is Mathlib's
  `round` on `ℚ` (both round halves up, like JS `Math.round`).
* A fallible network call is a function producing `Except`; `queryPrometheus`
  swallows its own failures and yields `[]`, so a Prometheus outcome is a
  plain list of points.
* The missing-value sentinel is `-1` (`MISSING` in the script).
-/

namespace MetricsSample

/-- The script's missing-value sentinel (`const MISSING = -1`). -/
def MISSING : Int := -1

/-! ### Failover resolver (`beaconGetWithFailover`, lines 144–153)

```js
async function beaconGetWithFailover(path) {
  for (const endpoint of CL_ENDPOINTS) {
    try { return await beaconGet(endpoint, path); } catch (e) { }
  }
  throw new Error(`All CL endpoints failed for ${path}`);
}
```

`behave e` is the outcome of `beaconGet e path` for the fixed `path`.
Besides the result we record the trace of endpoints actually called. -/

/-- Failover over an endpoint list: result of the first success (or the
script's aggregate error string), together with the list of endpoints
actually contacted, in order. -/
def failoverTrace {α : Type} (behave : String → Except Unit α) (path : String) :
    List String → Except String α × List String
  | [] => (Except.error ("All CL endpoints failed for " ++ path), [])
  | e :: rest =>
    match behave e with
    | Except.ok v => (Except.ok v, [e])
    | Except.error _ =>
      let r := failoverTrace behave path rest
      (r.1, e :: r.2)

/-- `beaconGetWithFailover` proper: just the returned/thrown value. -/
def beaconGetWithFailover {α : Type} (behave : String → Except Unit α)
    (path : String) (endpoints : List String) : Except String α :=
  (failoverTrace behave path endpoints).1

/-- Default `CL_ENDPOINTS` (env `BEACON_URLS` unset). -/
def CL_ENDPOINTS : List String :=
  ["http://prysm:3500", "http://prysm-2:3500", "http://prysm-3:3500"]

/-! ### Network sampler derivations (`sampleNetwork`, lines 234–270)

```js
curEpoch = (headSlot >= 0 && Number.isFinite(SLOTS_PER_EPOCH)) ? Math.floor(headSlot / SLOTS_PER_EPOCH) : -1;
const finSlot = (finEpoch >= 0 && Number.isFinite(SLOTS_PER_EPOCH)) ? finEpoch * SLOTS_PER_EPOCH : -1;
finGapSlots = (headSlot >= 0 && finSlot >= 0) ? Math.max(0, headSlot - finSlot) : -1;
finGapEpochs = (curEpoch >= 0 && finEpoch >= 0) ? Math.max(0, curEpoch - finEpoch) : -1;
```

`SLOTS_PER_EPOCH` is parsed from a digits-only regex (default 6), so it is a
natural number and `Number.isFinite` is always true. -/

/-- `curEpoch` as computed by `sampleNetwork`. -/
def curEpochOf (spe : Nat) (headSlot : Int) : Int :=
  if 0 ≤ headSlot then Int.fdiv headSlot spe else -1

/-- `finSlot` as computed by `sampleNetwork`. -/
def finSlotOf (spe : Nat) (finEpoch : Int) : Int :=
  if 0 ≤ finEpoch then finEpoch * spe else -1

/-- `finGapSlots` as computed by `sampleNetwork`. -/
def finGapSlotsOf (spe : Nat) (headSlot finEpoch : Int) : Int :=
  if 0 ≤ headSlot ∧ 0 ≤ finSlotOf spe finEpoch then
    max 0 (headSlot - finSlotOf spe finEpoch)
  else -1

/-- `finGapEpochs` as computed by `sampleNetwork`. -/
def finGapEpochsOf (spe : Nat) (headSlot finEpoch : Int) : Int :=
  if 0 ≤ curEpochOf spe headSlot ∧ 0 ≤ finEpoch then
    max 0 (curEpochOf spe headSlot - finEpoch)
  else -1

/-! ### Validator-bucket totaling (`sampleNetwork`, lines 247–258)

```js
const total = [cPendInit, cPendQueue, cActOngo, cActExit].filter(n => n >= 0).reduce((a, b) => a + b, 0) || -1;
const activationQueueLen = (cPendInit >= 0 && cPendQueue >= 0) ? (cPendInit + cPendQueue) : -1;
```

Each bucket is `-1` when its (failover-protected) call failed, otherwise the
returned array's length (≥ 0).  JS `x || -1` yields `-1` exactly when the
sum `x` is falsy, i.e. zero. -/

/-- `validators_total` as computed by `sampleNetwork`. -/
def validatorsTotal (cPendInit cPendQueue cActOngo cActExit : Int) : Int :=
  let s := (([cPendInit, cPendQueue, cActOngo, cActExit].filter
    (fun n => decide (0 ≤ n))).foldl (· + ·) 0)
  if s = 0 then -1 else s

/-- `activation_queue_len` as computed by `sampleNetwork`. -/
def activationQueueLen (cPendInit cPendQueue : Int) : Int :=
  if 0 ≤ cPendInit ∧ 0 ≤ cPendQueue then cPendInit + cPendQueue else -1

/-! ### Validator-balance sampler (`sampleValidators`, lines 272–287)

```js
let avgBal = -1;
let source = 'any';
try {
  const { json } = await beaconGetWithFailover('/eth/v1/beacon/states/head/validators?status=active');
  const arr = (json.data || []).map(v => Number(v?.balance ?? v?.effective_balance ?? -1)).filter(n => n >= 0);
  if (arr.length) { let sum = 0; for (const b of arr) { sum += b; } avgBal = Math.round(sum / arr.length); }
} catch { }
appendCsvRow(VAL_CSV, [ts_ms, source, avgBal]);
```

The fetch outcome is modelled as the list of `Number(...)` balance values
decoded from `json.data` (or the thrown error).  `Math.round(x)` is
`⌊x + 1/2⌋`; on the exact quotient `s / l` of integers with `l > 0` that is
`⌊(2s + l) / (2l)⌋`, i.e. `Int.fdiv (2*s + l) (2*l)`, which is how we keep
the rounding executable by kernel reduction. -/

/-- `Math.round(s / l)` for integer `s` and positive integer `l`. -/
def jsRound (s l : Int) : Int :=
  Int.fdiv (2 * s + l) (2 * l)

/-- `avgBal` as computed by `sampleValidators` from the fetch outcome. -/
def avgBalanceOf {ε : Type} (fetch : Except ε (List Int)) : Int :=
  match fetch with
  | Except.error _ => MISSING
  | Except.ok raw =>
    let arr := raw.filter (fun n => decide (0 ≤ n))
    if arr.length = 0 then MISSING
    else jsRound (arr.foldl (· + ·) 0) arr.length

/-- The whole row appended to the validator CSV:
`(ts_ms, source_container, avg_effective_balance_gwei)`. -/
def sampleValidators (ts_ms : Int)
    (behave : String → Except Unit (List Int)) (endpoints : List String) :
    Int × String × Int :=
  let fetch := beaconGetWithFailover behave
    "/eth/v1/beacon/states/head/validators?status=active" endpoints
  (ts_ms, "any", avgBalanceOf fetch)

/-! ### Performance sampler and instance reconciler
(`samplePerfMetrics`, lines 289–355)

The nine Prometheus queries settle to nine point lists (a failed query is
`[]`, see `queryPrometheus`).  The script destructures only SEVEN names:

```js
const [res1, res2, res3, res4, res5, res6, res7] = await Promise.all([ ...nine queries... ]);
```

then builds `data` (expected containers pre-filled with `MISSING`, each
point overlaid via `update`), and finally executes `update(res8, 'm8')` —
but `res8` and `res9` were never declared, so in this strict-mode module
that line throws `ReferenceError: res8 is not defined` before any row is
written. -/

/-- One Prometheus point: the `instance` label and `Number(r.value[1])`. -/
structure PromPoint where
  instLabel : String
  value : Int
  deriving DecidableEq, Repr

/-- The per-container metric record `{ m1, ..., m9 }`. -/
structure PerfRecord where
  m1 : Int
  m2 : Int
  m3 : Int
  m4 : Int
  m5 : Int
  m6 : Int
  m7 : Int
  m8 : Int
  m9 : Int
  deriving DecidableEq, Repr

/-- The record whose every column is the missing sentinel. -/
def PerfRecord.missing : PerfRecord :=
  ⟨MISSING, MISSING, MISSING, MISSING, MISSING, MISSING, MISSING, MISSING, MISSING⟩

/-- `PROM_INSTANCE_MAP` (lines 44–51), as an ordered association list. -/
def PROM_INSTANCE_MAP : List (String × String) :=
  [("host.docker.internal:8080", "prysm-1"),
   ("host.docker.internal:8081", "prysm-2"),
   ("host.docker.internal:8082", "prysm-3"),
   ("host.docker.internal:6060", "geth-1"),
   ("host.docker.internal:6061", "geth-2"),
   ("host.docker.internal:6062", "geth-3")]

/-- `expectedContainers = [...Object.values(PROM_INSTANCE_MAP)]`. -/
def expectedContainers : List String :=
  PROM_INSTANCE_MAP.map Prod.snd

/-- `getContainer`: `PROM_INSTANCE_MAP[instance] || instance`. -/
def getContainer (instLabel : String) : String :=
  match PROM_INSTANCE_MAP.lookup instLabel with
  | some c => c
  | none => instLabel

/-- The initial `data` object: one sentinel record per expected container,
in `Object.values` order. -/
def initPerfData : List (String × PerfRecord) :=
  expectedContainers.map (fun c => (c, PerfRecord.missing))

/-- One `data[c][key] = v` assignment guarded by `if (data[c])`: when the
key `c` is absent from `data`, nothing happens. -/
def updateAssoc (data : List (String × PerfRecord)) (c : String)
    (set : PerfRecord → Int → PerfRecord) (v : Int) :
    List (String × PerfRecord) :=
  data.map (fun p => if p.1 = c then (p.1, set p.2 v) else p)

/-- `update(res, key)`: overlay every point of one query result. -/
def update (data : List (String × PerfRecord))
    (res : List PromPoint) (set : PerfRecord → Int → PerfRecord) :
    List (String × PerfRecord) :=
  res.foldl (fun d r => updateAssoc d (getContainer r.instLabel) set r.value) data

/-- The `data` object after the seven `update(resK, 'mK')` calls that the
script actually reaches (`res1`..`res7` are the only declared bindings). -/
def buildPerfData (r1 r2 r3 r4 r5 r6 r7 : List PromPoint) :
    List (String × PerfRecord) :=
  update (update (update (update (update (update (update initPerfData
    r1 (fun m v => { m with m1 := v }))
    r2 (fun m v => { m with m2 := v }))
    r3 (fun m v => { m with m3 := v }))
    r4 (fun m v => { m with m4 := v }))
    r5 (fun m v => { m with m5 := v }))
    r6 (fun m v => { m with m6 := v }))
    r7 (fun m v => { m with m7 := v })

/-- A JavaScript runtime error surfaced as a rejected promise. -/
inductive JsError where
  | referenceError (name : String)
  deriving DecidableEq, Repr

/-- `samplePerfMetrics` run on the nine settled query results: the script
computes `data` from `res1`..`res7`, then evaluates `update(res8, 'm8')`,
whose argument `res8` is an undeclared identifier — the async function
rejects with a `ReferenceError` and the row-writing loop is never reached,
so no rows are produced. -/
def samplePerfMetrics (ts_ms : Int)
    (r1 r2 r3 r4 r5 r6 r7 r8 r9 : List PromPoint) :
    Except JsError (List (Int × String × List Int)) :=
  let _data := buildPerfData r1 r2 r3 r4 r5 r6 r7
  let _ := ts_ms
  let _ := r8
  let _ := r9
  Except.error (JsError.referenceError "res8")

/-! ### Cadence scheduler (`main`, lines 357–380)

```js
let nextAt = Date.now();
while (!stop && Date.now() < endAt) {
  await Promise.allSettled([...samplers...]);
  nextAt += INTERVAL_MS;
  const now = Date.now();
  const delay = Math.max(0, nextAt - now);
  if (delay > 0) await sleep(delay);
}
```

State: the wall clock `now` and the deadline `nextAt`, both initialised to
the same start instant.  One tick consumes `proc` milliseconds of
processing; the sleep is modelled as exact. -/

/-- Scheduler state: wall clock and next deadline, in ms. -/
structure SchedState where
  now : Int
  nextAt : Int
  deriving DecidableEq, Repr

/-- The sleep the loop performs after a tick whose processing took `proc`:
`Math.max(0, nextAt - now)` after `nextAt += period`. -/
def schedDelay (period proc : Int) (s : SchedState) : Int :=
  max 0 (s.nextAt + period - (s.now + proc))

/-- One loop iteration: process, advance the deadline by the period, sleep
the (possibly zero) remaining time. -/
def schedStep (period proc : Int) (s : SchedState) : SchedState :=
  { now := s.now + proc + schedDelay period proc s,
    nextAt := s.nextAt + period }

/-- The scheduler after a sequence of tick processing times. -/
def schedRun (period start : Int) (procs : List Int) : SchedState :=
  procs.foldl (fun s p => schedStep period p s) { now := start, nextAt := start }

/-! ### Settle-all tick semantics (`main`, lines 366–373)

`await Promise.allSettled([...])` never rejects: every sampler outcome is
recorded as fulfilled or rejected and the loop continues unconditionally. -/

/-- The status of one settled promise. -/
inductive Settled (ε α : Type) where
  | fulfilled (v : α)
  | rejected (e : ε)
  deriving DecidableEq, Repr

/-- `Promise.allSettled` over one tick's sampler outcomes. -/
def allSettled {ε α : Type} (outcomes : List (Except ε α)) : List (Settled ε α) :=
  outcomes.map (fun o => match o with
    | Except.ok v => Settled.fulfilled v
    | Except.error e => Settled.rejected e)

/-- The whole sampling loop over a finite run: each tick carries its
processing time and its sampler outcomes; the loop settles all outcomes,
then advances the scheduler.  Its result type has no failure case: sampler
rejections are data, never control flow. -/
def mainRun {ε α : Type} (period start : Int)
    (ticks : List (Int × List (Except ε α))) :
    List (List (Settled ε α)) × SchedState :=
  ticks.foldl
    (fun acc t => (acc.1 ++ [allSettled t.2], schedStep period t.1 acc.2))
    ([], { now := start, nextAt := start })

/-! ## Helper lemmas -/

/-- An `updateAssoc` pass never changes the key list of `data`. -/
theorem updateAssoc_map_fst (data : List (String × PerfRecord)) (c : String)
    (set : PerfRecord → Int → PerfRecord) (v : Int) :
    (updateAssoc data c set v).map Prod.fst = data.map Prod.fst := by
  unfold updateAssoc
  rw [List.map_map]
  refine List.map_congr_left ?_
  intro p _
  by_cases h : p.1 = c <;> simp [h]

/-- An `update` pass never changes the key list of `data`. -/
theorem update_map_fst (res : List PromPoint)
    (data : List (String × PerfRecord)) (set : PerfRecord → Int → PerfRecord) :
    (update data res set).map Prod.fst = data.map Prod.fst := by
  induction res generalizing data with
  | nil => rfl
  | cons r rest ih =>
    unfold update at *
    simp only [List.foldl_cons]
    rw [ih, updateAssoc_map_fst]

/-- The reconciled `data` object holds exactly the expected containers. -/
theorem buildPerfData_map_fst (r1 r2 r3 r4 r5 r6 r7 : List PromPoint) :
    (buildPerfData r1 r2 r3 r4 r5 r6 r7).map Prod.fst = expectedContainers := by
  unfold buildPerfData
  rw [update_map_fst, update_map_fst, update_map_fst, update_map_fst,
    update_map_fst, update_map_fst, update_map_fst]
  rfl

/-- `updateAssoc` with a key that is absent from `data` is the identity. -/
theorem updateAssoc_of_not_mem (data : List (String × PerfRecord)) (c : String)
    (set : PerfRecord → Int → PerfRecord) (v : Int)
    (h : c ∉ data.map Prod.fst) :
    updateAssoc data c set v = data := by
  unfold updateAssoc
  induction data with
  | nil => rfl
  | cons p rest ih =>
    simp only [List.map_cons, List.mem_cons] at h
    push_neg at h
    simp only [List.map_cons]
    rw [if_neg (fun he => h.1 he.symm), ih h.2]

/-- The deadline after a run is the start anchored forward by one period
per tick, whatever the initial state. -/
theorem schedFoldl_nextAt (period : Int) (procs : List Int) (s : SchedState) :
    (procs.foldl (fun s p => schedStep period p s) s).nextAt
      = s.nextAt + procs.length * period := by
  induction procs generalizing s with
  | nil => simp
  | cons p rest ih =>
    rw [List.foldl_cons, ih]
    simp only [schedStep, List.length_cons]
    push_cast
    ring

/-- After any single step the wall clock is at or past the deadline. -/
theorem schedStep_catches_up (period proc : Int) (s : SchedState) :
    (schedStep period proc s).nextAt ≤ (schedStep period proc s).now := by
  simp only [schedStep, schedDelay]
  have h : s.nextAt + period - (s.now + proc)
      ≤ max 0 (s.nextAt + period - (s.now + proc)) := le_max_right _ _
  omega

/-- The wall clock stays at or past the deadline along any run. -/
theorem schedFoldl_inv (period : Int) (procs : List Int) (s : SchedState)
    (h : s.nextAt ≤ s.now) :
    (procs.foldl (fun s p => schedStep period p s) s).nextAt
      ≤ (procs.foldl (fun s p => schedStep period p s) s).now := by
  induction procs generalizing s with
  | nil => exact h
  | cons p rest ih =>
    simp only [List.foldl_cons]
    exact ih _ (schedStep_catches_up period p s)

/-- The tick trace grows by exactly one entry per tick. -/
theorem mainFoldl_length {ε α : Type} (period : Int)
    (ticks : List (Int × List (Except ε α)))
    (acc : List (List (Settled ε α))) (s : SchedState) :
    (ticks.foldl
      (fun acc t => (acc.1 ++ [allSettled t.2], schedStep period t.1 acc.2))
      (acc, s)).1.length = acc.length + ticks.length := by
  induction ticks generalizing acc s with
  | nil => simp
  | cons t rest ih =>
    simp only [List.foldl_cons, ih, List.length_append, List.length_cons,
      List.length_nil]
    omega

/-- `jsRound` is JS `Math.round` of the exact quotient: for a positive
length it agrees with Mathlib's `round` of the rational mean. -/
theorem jsRound_eq_round (s : Int) (l : Nat) (hl : 0 < l) :
    jsRound s l = round ((s : ℚ) / (l : ℚ)) := by
  have hl0 : ((l : ℚ)) ≠ 0 := by
    exact_mod_cast (Nat.cast_pos.mpr hl).ne'
  have hQ : (s : ℚ) / (l : ℚ) + 1 / 2
      = (((2 * s + l : Int) : ℚ)) / (((2 * l : Nat) : ℚ)) := by
    push_cast
    field_simp
    ring
  rw [round_eq, hQ, Rat.floor_intCast_div_natCast]
  unfold jsRound
  rw [Int.fdiv_eq_ediv _ (by positivity)]
  push_cast
  ring_nf

/-! ## Claims -/

/-- C1: the performance sampler is claimed to emit exactly one record per
expected identity every tick, even when every backend query fails.  The
code cannot: it destructures only `res1`..`res7` out of its nine queries
and then evaluates `update(res8, 'm8')` on the undeclared identifier
`res8`, so the sampler rejects with a `ReferenceError` before the
row-writing loop.  Evaluated at the failing input in which all nine
queries failed (each settles to `[]`): no rows are produced although six
identities are expected. -/
theorem C1_perf_sampler_crashes :
    samplePerfMetrics 0 [] [] [] [] [] [] [] [] [] =
      Except.error (JsError.referenceError "res8") ∧
    expectedContainers.length = 6 :=
  ⟨rfl, rfl⟩

/-- C2: with all four validator-status buckets succeeding with count 0,
every bucket is non-sentinel, yet the code's `sum || -1` turns the
legitimate zero total into the missing sentinel — contradicting the claim
that `validators_total` is the sentinel only if no bucket succeeded.  (By
contrast `activation_queue_len` keeps the valid zero, as claimed.) -/
theorem C2_zero_total_conflated :
    (∀ b ∈ [(0 : Int), 0, 0, 0], 0 ≤ b) ∧
    validatorsTotal 0 0 0 0 = MISSING ∧
    activationQueueLen 0 0 = 0 := by
  decide

/-- C3 counterexample: a raw point whose instance label `"unknown:9999"`
has no table entry is NOT merged into the reconciled data: the data object
stays exactly at its all-sentinel initial value and has no entry under the
raw label, contradicting the claim that such a point is kept with the raw
label as its identity. -/
theorem C3_unmapped_point_cex :
    PROM_INSTANCE_MAP.lookup "unknown:9999" = none ∧
    buildPerfData [⟨"unknown:9999", 5⟩] [] [] [] [] [] [] = initPerfData ∧
    (buildPerfData [⟨"unknown:9999", 5⟩] [] [] [] [] [] []).lookup
      "unknown:9999" = none := by
  decide

/-- C3 amended: a raw point whose instance label has no table entry is
silently dropped.  The raw label serves as fallback identity only for the
lookup into the pre-initialized data object, whose keys are exactly the
expected identities, so a point whose raw label is not itself an expected
identity changes nothing. -/
theorem C3_unmapped_point_dropped (r1 r2 r3 r4 r5 r6 r7 : List PromPoint)
    (p : PromPoint) (hu : PROM_INSTANCE_MAP.lookup p.instLabel = none)
    (he : p.instLabel ∉ expectedContainers) :
    (buildPerfData r1 r2 r3 r4 r5 r6 r7).map Prod.fst = expectedContainers ∧
    ∀ set v, updateAssoc (buildPerfData r1 r2 r3 r4 r5 r6 r7)
      (getContainer p.instLabel) set v = buildPerfData r1 r2 r3 r4 r5 r6 r7 := by
  have hg : getContainer p.instLabel = p.instLabel := by
    unfold getContainer
    rw [hu]
  refine ⟨buildPerfData_map_fst r1 r2 r3 r4 r5 r6 r7, ?_⟩
  intro set v
  rw [hg]
  exact updateAssoc_of_not_mem _ _ _ _
    (by rw [buildPerfData_map_fst]; exact he)

/-- C3 witness: the amended statement at a concrete unmapped point. -/
theorem C3_unmapped_point_dropped_witness :
    (buildPerfData [⟨"unknown:9999", 5⟩] [] [] [] [] [] []).map Prod.fst
      = expectedContainers ∧
    ∀ set v, updateAssoc (buildPerfData [⟨"unknown:9999", 5⟩] [] [] [] [] [] [])
      (getContainer (PromPoint.mk "unknown:9999" 5).instLabel) set v
      = buildPerfData [⟨"unknown:9999", 5⟩] [] [] [] [] [] [] :=
  C3_unmapped_point_dropped [⟨"unknown:9999", 5⟩] [] [] [] [] [] []
    ⟨"unknown:9999", 5⟩ (by decide) (by decide)

/-- C4: the failover resolver attempts endpoints in configuration order
and returns the first success; endpoints after the first success are never
contacted — the call trace is exactly the failing prefix followed by the
succeeding endpoint. -/
theorem C4_failover_first_success {α : Type} (behave : String → Except Unit α)
    (path : String) (pre post : List String) (e : String) (v : α)
    (hpre : ∀ x ∈ pre, behave x = Except.error ())
    (he : behave e = Except.ok v) :
    beaconGetWithFailover behave path (pre ++ e :: post) = Except.ok v ∧
    failoverTrace behave path (pre ++ e :: post) = (Except.ok v, pre ++ [e]) := by
  have key : failoverTrace behave path (pre ++ e :: post)
      = (Except.ok v, pre ++ [e]) := by
    induction pre with
    | nil =>
      simp only [List.nil_append]
      unfold failoverTrace
      rw [he]
    | cons x rest ih =>
      have hx : behave x = Except.error () := hpre x (List.mem_cons_self x rest)
      have ih2 := ih (fun y hy => hpre y (List.mem_cons_of_mem x hy))
      simp only [List.cons_append]
      unfold failoverTrace
      rw [hx, ih2]
  exact ⟨by unfold beaconGetWithFailover; rw [key], key⟩

/-- C4 witness: endpoints `[A, B, C]`, A fails, B succeeds with 42 — the
resolver returns 42 and the trace is `[A, B]`; C is never contacted. -/
theorem C4_failover_first_success_witness :
    beaconGetWithFailover
        (fun s => if s = "B" then Except.ok (42 : Nat) else Except.error ())
        "/p" (["A"] ++ "B" :: ["C"]) = Except.ok 42 ∧
    failoverTrace
        (fun s => if s = "B" then Except.ok (42 : Nat) else Except.error ())
        "/p" (["A"] ++ "B" :: ["C"]) = (Except.ok 42, ["A"] ++ ["B"]) :=
  C4_failover_first_success _ "/p" ["A"] ["C"] "B" 42
    (by intro x hx; simp only [List.mem_singleton] at hx; subst hx; rfl) rfl

/-- C5 counterexample: with the default endpoint list and every endpoint
failing, the resolver fails with a single error naming only the operation
path; no endpoint tried appears anywhere in it — contradicting the claim
that the aggregate error names every endpoint tried. -/
theorem C5_error_names_no_endpoint_cex :
    beaconGetWithFailover (α := Nat) (fun _ => Except.error ())
        "/eth/v1/beacon/headers/head" CL_ENDPOINTS =
      Except.error "All CL endpoints failed for /eth/v1/beacon/headers/head" ∧
    ∀ e ∈ CL_ENDPOINTS,
      ¬ (e.data <:+:
        ("All CL endpoints failed for /eth/v1/beacon/headers/head").data) :=
  ⟨rfl, by decide⟩

/-- C5 amended: when every endpoint fails, the resolver does attempt every
endpoint, but fails with the single error string
`"All CL endpoints failed for " ++ path`, naming only the operation
path — the attempted endpoints are not recorded in the error. -/
theorem C5_all_fail_aggregate {α : Type} (behave : String → Except Unit α)
    (path : String) (es : List String)
    (hall : ∀ e ∈ es, behave e = Except.error ()) :
    beaconGetWithFailover behave path es =
      Except.error ("All CL endpoints failed for " ++ path) ∧
    (failoverTrace behave path es).2 = es := by
  have key : failoverTrace behave path es =
      (Except.error ("All CL endpoints failed for " ++ path), es) := by
    induction es with
    | nil => rfl
    | cons x rest ih =>
      have hx : behave x = Except.error () := hall x (List.mem_cons_self x rest)
      have ih2 := ih (fun y hy => hall y (List.mem_cons_of_mem x hy))
      unfold failoverTrace
      rw [hx, ih2]
  exact ⟨by unfold beaconGetWithFailover; rw [key], by rw [key]⟩

/-- C5 witness: the amended statement with every default endpoint failing. -/
theorem C5_all_fail_aggregate_witness :
    beaconGetWithFailover (α := Nat) (fun _ => Except.error ())
        "/eth/v1/beacon/headers/head" CL_ENDPOINTS =
      Except.error
        ("All CL endpoints failed for " ++ "/eth/v1/beacon/headers/head") ∧
    (failoverTrace (α := Nat) (fun _ => Except.error ())
        "/eth/v1/beacon/headers/head" CL_ENDPOINTS).2 = CL_ENDPOINTS :=
  C5_all_fail_aggregate _ "/eth/v1/beacon/headers/head" CL_ENDPOINTS
    (fun _ _ => rfl)

/-- C6: for positive slots-per-epoch, `current_epoch` is the floor of the
exact quotient `headSlot / slotsPerEpoch` whenever the head slot is
non-sentinel, and each finality gap equals its claimed `max 0` difference
exactly when both of its operands are non-sentinel, being the sentinel
otherwise. -/
theorem C6_network_derivation (spe : Nat) (headSlot finEpoch : Int)
    (hspe : 0 < spe) :
    (0 ≤ headSlot → curEpochOf spe headSlot = ⌊(headSlot : ℚ) / (spe : ℚ)⌋) ∧
    (0 ≤ headSlot ∧ 0 ≤ finEpoch →
      finGapSlotsOf spe headSlot finEpoch = max 0 (headSlot - finEpoch * spe) ∧
      finGapEpochsOf spe headSlot finEpoch
        = max 0 (curEpochOf spe headSlot - finEpoch)) ∧
    (¬ (0 ≤ headSlot ∧ 0 ≤ finEpoch) →
      finGapSlotsOf spe headSlot finEpoch = MISSING ∧
      finGapEpochsOf spe headSlot finEpoch = MISSING) := by
  refine ⟨?_, ?_, ?_⟩
  · intro h
    unfold curEpochOf
    rw [if_pos h, Rat.floor_intCast_div_natCast,
      Int.fdiv_eq_ediv _ (by positivity)]
  · rintro ⟨h1, h2⟩
    have hfs : finSlotOf spe finEpoch = finEpoch * spe := if_pos h2
    constructor
    · unfold finGapSlotsOf
      rw [hfs, if_pos ⟨h1, mul_nonneg h2 (by positivity)⟩]
    · have hce : 0 ≤ curEpochOf spe headSlot := by
        unfold curEpochOf
        rw [if_pos h1]
        exact Int.fdiv_nonneg h1 (by positivity)
      unfold finGapEpochsOf
      rw [if_pos ⟨hce, h2⟩]
  · intro h
    constructor
    · have hcond : ¬ (0 ≤ headSlot ∧ 0 ≤ finSlotOf spe finEpoch) := by
        rintro ⟨hc1, hc2⟩
        refine h ⟨hc1, ?_⟩
        by_contra hne
        rw [finSlotOf, if_neg hne] at hc2
        omega
      unfold finGapSlotsOf
      rw [if_neg hcond]
      rfl
    · have hcond : ¬ (0 ≤ curEpochOf spe headSlot ∧ 0 ≤ finEpoch) := by
        rintro ⟨hc1, hc2⟩
        refine h ⟨?_, hc2⟩
        by_contra hne
        rw [curEpochOf, if_neg hne] at hc1
        omega
      unfold finGapEpochsOf
      rw [if_neg hcond]
      rfl

/-- C6 witness: headSlot 100, finalizedEpoch 3, slotsPerEpoch 6 give
gap 82 slots, 13 epochs, current epoch 16. -/
theorem C6_network_derivation_witness :
    finGapSlotsOf 6 100 3 = 82 ∧ finGapEpochsOf 6 100 3 = 13 ∧
    curEpochOf 6 100 = 16 := by
  have h := (C6_network_derivation 6 100 3 (by decide)).2.1 ⟨by decide, by decide⟩
  refine ⟨?_, ?_, by decide⟩
  · rw [h.1]; decide
  · rw [h.2]; decide

/-- C7: after any run the scheduler's deadline is the start anchored
forward by exactly one period per tick (never re-based on "now"), the wall
clock never lags the deadline, and a further tick whose processing exceeds
one period incurs zero sleep. -/
theorem C7_scheduler_anchored (period start : Int) (procs : List Int)
    (p : Int) (hp : period < p) :
    (schedRun period start procs).nextAt = start + procs.length * period ∧
    (schedRun period start procs).nextAt ≤ (schedRun period start procs).now ∧
    schedDelay period p (schedRun period start procs) = 0 := by
  have h1 : (schedRun period start procs).nextAt
      = start + procs.length * period :=
    schedFoldl_nextAt period procs { now := start, nextAt := start }
  have h2 : (schedRun period start procs).nextAt
      ≤ (schedRun period start procs).now :=
    schedFoldl_inv period procs { now := start, nextAt := start } le_rfl
  refine ⟨h1, h2, ?_⟩
  unfold schedDelay
  have hx : (schedRun period start procs).nextAt + period
      - ((schedRun period start procs).now + p) ≤ 0 := by
    omega
  exact max_eq_left hx

/-- C7 witness: period 1000 ms, ticks taking 1300 ms and 200 ms — the
deadline stays anchored at 2000, and a 1300 ms tick sleeps zero. -/
theorem C7_scheduler_anchored_witness :
    (schedRun 1000 0 [1300, 200]).nextAt = 2000 ∧
    schedDelay 1000 1300 (schedRun 1000 0 [1300, 200]) = 0 := by
  have h := C7_scheduler_anchored 1000 0 [1300, 200] 1300 (by decide)
  exact ⟨by rw [h.1]; decide, h.2.2⟩

/-- C8: the validator-balance sampler yields the missing sentinel on call
failure and on an empty valid-balance set, and otherwise the arithmetic
mean of the valid balances rounded to the nearest integer (Mathlib
`round`, which rounds halves up exactly as `Math.round` does). -/
theorem C8_validator_mean {ε : Type} (raw : List Int) :
    (∀ err : ε, avgBalanceOf (Except.error (α := List Int) err) = MISSING) ∧
    (raw.filter (fun n => decide (0 ≤ n)) = [] →
      avgBalanceOf (Except.ok (ε := ε) raw) = MISSING) ∧
    (raw.filter (fun n => decide (0 ≤ n)) ≠ [] →
      avgBalanceOf (Except.ok (ε := ε) raw)
        = round ((((raw.filter (fun n => decide (0 ≤ n))).foldl (· + ·) 0 : Int) : ℚ)
            / ((raw.filter (fun n => decide (0 ≤ n))).length : ℚ))) := by
  refine ⟨fun _ => rfl, ?_, ?_⟩
  · intro h
    unfold avgBalanceOf
    simp [h]
  · intro h
    have hlen : (raw.filter (fun n => decide (0 ≤ n))).length ≠ 0 :=
      fun hc => h (List.length_eq_zero.mp hc)
    unfold avgBalanceOf
    simp only [if_neg hlen]
    exact jsRound_eq_round _ _ (Nat.pos_of_ne_zero hlen)

/-- C8 witness: balances `[3, 4]` (mean 3.5) give 4, the nearest-integer
rounding of the exact mean. -/
theorem C8_validator_mean_witness :
    avgBalanceOf (Except.ok (ε := Unit) [3, 4]) = 4 ∧
    round ((((([3, 4] : List Int).filter (fun n => decide (0 ≤ n))).foldl
        (· + ·) 0 : Int) : ℚ)
      / ((([3, 4] : List Int).filter (fun n => decide (0 ≤ n))).length : ℚ))
      = 4 := by
  have h := (C8_validator_mean (ε := Unit) [3, 4]).2.2 (by decide)
  exact ⟨by decide, by rw [← h]; decide⟩

/-- C9: every tick is awaited with settle-all semantics: the loop records
exactly one trace entry per tick whatever the outcomes, each sampler
outcome yields one settled entry, and a rejection is captured as a
`rejected` value rather than propagated — no failure shortens the run. -/
theorem C9_settle_all {ε α : Type} (period start : Int)
    (ticks : List (Int × List (Except ε α))) :
    (mainRun period start ticks).1.length = ticks.length ∧
    (∀ outs : List (Except ε α), (allSettled outs).length = outs.length) ∧
    (∀ outs : List (Except ε α), ∀ e : ε,
      Except.error e ∈ outs → Settled.rejected e ∈ allSettled outs) := by
  refine ⟨?_, fun outs => List.length_map _ _, ?_⟩
  · have h := mainFoldl_length period ticks [] { now := start, nextAt := start }
    simpa [mainRun] using h
  · intro outs e he
    unfold allSettled
    exact List.mem_map.mpr ⟨Except.error e, he, rfl⟩

/-- C9 witness: a tick with one rejected and one fulfilled sampler still
yields one trace entry, and the rejection is captured as data. -/
theorem C9_settle_all_witness :
    (mainRun 1000 0
      [(1300, [Except.error "boom", Except.ok (7 : Nat)])]).1.length = 1 ∧
    Settled.rejected "boom"
      ∈ allSettled [Except.error "boom", Except.ok (7 : Nat)] := by
  have h := C9_settle_all 1000 0
    [(1300, [Except.error "boom", Except.ok (7 : Nat)])]
  exact ⟨h.1, h.2.2 [Except.error "boom", Except.ok (7 : Nat)] "boom"
    (by simp)⟩

/-- C10: every row the validator-balance sampler writes carries the
constant `source_container` value `"any"`, regardless of which endpoint
(if any) served the data. -/
theorem C10_source_container_any (ts_ms : Int)
    (behave : String → Except Unit (List Int)) (endpoints : List String) :
    (sampleValidators ts_ms behave endpoints).2.1 = "any" :=
  rfl

end MetricsSample
